import Mathlib

/-!
Verification development for the `NetServerTransport` TCP relay
(`src/unnamed/part_001` of the ATEMMETA/ai-swarm-server repository).

The transport accepts raw byte chunks from phone clients, parses each chunk
as one JSON message, dispatches `register_client` / `tool_request` frames,
answers HTTP health-check probes, and maintains a client list plus an
outbound message queue flushed when the server starts listening.

The definitions below are a shallow embedding of that file: JavaScript
values appearing on the wire are modelled by an inductive `Json` type,
`JSON.parse` by a fuel-based recursive-descent parser that accepts a
value only when the whole (whitespace-trimmed) input is consumed, and the
stateful transport by explicit state passing over `TransportState`.
-/

namespace AiSwarm

/-- A JSON value as produced by `JSON.parse` (numbers restricted to
integers, which covers every frame the transport manipulates). -/
inductive Json where
  | null : Json
  | bool : Bool → Json
  | num : Int → Json
  | str : String → Json
  | arr : List Json → Json
  | obj : List (String × Json) → Json

/-- ASCII whitespace, as trimmed by `String.prototype.trim` and skipped by
the JSON grammar. -/
def isWs (c : Char) : Bool :=
  c = ' ' || c = '\n' || c = '\t' || c = '\r' || c = '\x0b' || c = '\x0c'

/-- Drop leading whitespace characters. -/
def skipWs : List Char → List Char
  | [] => []
  | c :: cs => if isWs c then skipWs cs else c :: cs

/-- Model of JavaScript `String.prototype.trim` (both ends). -/
def jsTrim (s : String) : String :=
  String.mk (((s.data.dropWhile isWs).reverse.dropWhile isWs).reverse)

/-- Model of JavaScript `String.prototype.startsWith`. -/
def startsWithChars : List Char → List Char → Bool
  | [], _ => true
  | _ :: _, [] => false
  | p :: ps, c :: cs => p = c && startsWithChars ps cs

/-- The string `s` starts with the prefix string `pre`. -/
def jsStartsWith (s pre : String) : Bool :=
  startsWithChars pre.data s.data

/-- Decode one JSON string escape character. -/
def escChar (e : Char) : Option Char :=
  if e = 'n' then some '\n'
  else if e = 't' then some '\t'
  else if e = 'r' then some '\r'
  else if e = 'b' then some '\x08'
  else if e = 'f' then some '\x0c'
  else if e = '"' then some '"'
  else if e = '\\' then some '\\'
  else if e = '/' then some '/'
  else none

/-- Parse the body of a JSON string (the opening quote already consumed),
returning the decoded characters and the rest of the input. -/
def parseStrChars : List Char → Option (List Char × List Char)
  | [] => none
  | '"' :: rest => some ([], rest)
  | '\\' :: rest =>
    match rest with
    | [] => none
    | e :: rest2 =>
      match escChar e, parseStrChars rest2 with
      | some c, some (s, r) => some (c :: s, r)
      | _, _ => none
  | c :: rest =>
    match parseStrChars rest with
    | some (s, r) => some (c :: s, r)
    | none => none

/-- Split a maximal run of leading decimal digits from the input. -/
def takeDigits : List Char → List Char × List Char
  | [] => ([], [])
  | c :: cs =>
    if c.isDigit then
      match takeDigits cs with
      | (d, r) => (c :: d, r)
    else ([], c :: cs)

/-- Value of a digit run. -/
def digitsToNat (ds : List Char) : Nat :=
  List.foldl (fun a c => a * 10 + (c.toNat - 48)) 0 ds

/-- Expect a literal character sequence, returning the remaining input. -/
def expectLit : List Char → List Char → Option (List Char)
  | [], rest => some rest
  | c :: cs, d :: rest => if c = d then expectLit cs rest else none
  | _ :: _, [] => none

mutual

/-- Recursive-descent parser for one JSON value; `fuel` bounds recursion
depth and is instantiated generously by `Json.parse`. -/
def parseVal : Nat → List Char → Option (Json × List Char)
  | 0, _ => none
  | Nat.succ fuel, input =>
    match skipWs input with
    | [] => none
    | '"' :: rest =>
      match parseStrChars rest with
      | some (cs, r) => some (Json.str (String.mk cs), r)
      | none => none
    | '{' :: rest =>
      match skipWs rest with
      | '}' :: r2 => some (Json.obj [], r2)
      | _ =>
        match parseFields fuel rest with
        | some (fs, r2) => some (Json.obj fs, r2)
        | none => none
    | '[' :: rest =>
      match skipWs rest with
      | ']' :: r2 => some (Json.arr [], r2)
      | _ =>
        match parseItems fuel rest with
        | some (xs, r2) => some (Json.arr xs, r2)
        | none => none
    | 'n' :: rest =>
      match expectLit ['u', 'l', 'l'] rest with
      | some r => some (Json.null, r)
      | none => none
    | 't' :: rest =>
      match expectLit ['r', 'u', 'e'] rest with
      | some r => some (Json.bool true, r)
      | none => none
    | 'f' :: rest =>
      match expectLit ['a', 'l', 's', 'e'] rest with
      | some r => some (Json.bool false, r)
      | none => none
    | '-' :: rest =>
      match takeDigits rest with
      | ([], _) => none
      | (ds, r) => some (Json.num (-(digitsToNat ds : Int)), r)
    | c :: rest =>
      if c.isDigit then
        match takeDigits (c :: rest) with
        | (ds, r) => some (Json.num (digitsToNat ds : Int), r)
      else none

/-- Parse the comma-separated items of a non-empty JSON array, up to and
including the closing bracket. -/
def parseItems : Nat → List Char → Option (List Json × List Char)
  | 0, _ => none
  | Nat.succ fuel, input =>
    match parseVal fuel input with
    | none => none
    | some (j, rest) =>
      match skipWs rest with
      | ',' :: r2 =>
        match parseItems fuel r2 with
        | some (xs, r3) => some (j :: xs, r3)
        | none => none
      | ']' :: r2 => some ([j], r2)
      | _ => none

/-- Parse the comma-separated fields of a non-empty JSON object, up to and
including the closing brace. -/
def parseFields : Nat → List Char → Option (List (String × Json) × List Char)
  | 0, _ => none
  | Nat.succ fuel, input =>
    match skipWs input with
    | '"' :: rest =>
      match parseStrChars rest with
      | none => none
      | some (kcs, r1) =>
        match skipWs r1 with
        | ':' :: r2 =>
          match parseVal fuel r2 with
          | none => none
          | some (v, r3) =>
            match skipWs r3 with
            | ',' :: r4 =>
              match parseFields fuel r4 with
              | some (fs, r5) => some ((String.mk kcs, v) :: fs, r5)
              | none => none
            | '}' :: r4 => some ([(String.mk kcs, v)], r4)
            | _ => none
        | _ => none
    | _ => none

end

/-- Model of `JSON.parse`: succeeds only when the whole input (up to
surrounding whitespace) is one JSON value, as the JavaScript function
does — trailing content such as a second newline-delimited frame makes
the parse fail. -/
def Json.parse (s : String) : Option Json :=
  match parseVal (2 * s.length + 8) s.data with
  | some (j, rest) => if (skipWs rest).isEmpty then some j else none
  | none => none

/-- Property access `o.k` on a parsed value: `some` only for objects that
carry the key (duplicate keys: the last occurrence wins, as in
`JSON.parse`); `none` models JavaScript `undefined`. -/
def Json.getField : Json → String → Option Json
  | Json.obj fields, k =>
    match fields.reverse.find? (fun p => p.1 == k) with
    | some p => some p.2
    | none => none
  | _, _ => none

/-- JavaScript truthiness of a JSON value (`null`, `false`, `0` and the
empty string are falsy). -/
def Json.jsTruthy : Json → Bool
  | Json.null => false
  | Json.bool b => b
  | Json.num n => n != 0
  | Json.str s => s != ""
  | Json.arr _ => true
  | Json.obj _ => true

/-- Truthiness of a property-access result, `none` (undefined) being
falsy. -/
def jsTruthyOpt : Option Json → Bool
  | none => false
  | some j => j.jsTruthy

/-- Escape one character for JSON string output. -/
def escapeChar (c : Char) : List Char :=
  if c = '"' then ['\\', '"']
  else if c = '\\' then ['\\', '\\']
  else if c = '\n' then ['\\', 'n']
  else if c = '\t' then ['\\', 't']
  else if c = '\r' then ['\\', 'r']
  else [c]

/-- Escape a string for JSON output. -/
def escapeString (s : String) : String :=
  String.mk (s.data.foldr (fun c acc => escapeChar c ++ acc) [])

mutual

/-- Model of `JSON.stringify` (object fields in stored order, matching
JavaScript insertion order). -/
def Json.stringify : Json → String
  | Json.null => "null"
  | Json.bool b => if b then "true" else "false"
  | Json.num n => toString n
  | Json.str s => "\"" ++ escapeString s ++ "\""
  | Json.arr xs => "[" ++ stringifyItems xs ++ "]"
  | Json.obj fs => "\x7b" ++ stringifyFields fs ++ "\x7d"

/-- Comma-separated serialization of array items. -/
def stringifyItems : List Json → String
  | [] => ""
  | [x] => Json.stringify x
  | x :: xs => Json.stringify x ++ "," ++ stringifyItems xs

/-- Comma-separated serialization of object fields. -/
def stringifyFields : List (String × Json) → String
  | [] => ""
  | [(k, v)] => "\"" ++ escapeString k ++ "\":" ++ Json.stringify v
  | (k, v) :: fs =>
    "\"" ++ escapeString k ++ "\":" ++ Json.stringify v ++ "," ++ stringifyFields fs

end

/-- One connected phone client: the socket (identified by `id`, unique per
accepted socket) together with its optional `clientId` property, set by a
`register_client` frame. -/
structure Conn where
  id : Nat
  clientId : Option String
deriving DecidableEq, Repr

/-- One entry of `this.messageQueue`: `sendToAllPhones` pushes the already
serialized, newline-terminated string, `sendToPhone` pushes the
`\x7b clientId, data \x7d` record. -/
inductive QueueItem where
  | broadcast : String → QueueItem
  | targeted : String → Json → QueueItem

/-- The mutable fields of `NetServerTransport` relevant to message
delivery: the `clients` array (in connection-arrival order), the
`messageQueue`, and the `transportReady` flag. -/
structure TransportState where
  clients : List Conn
  messageQueue : List QueueItem
  transportReady : Bool

/-- How one inbound chunk was classified by the `data` handler. -/
inductive HandlerEvent where
  | empty : HandlerEvent
  | registered : String → HandlerEvent
  | toolOk : HandlerEvent
  | toolErr : HandlerEvent
  | toolDropped : HandlerEvent
  | unknown : HandlerEvent
  | httpProbe : HandlerEvent
  | decodeError : HandlerEvent
deriving DecidableEq, Repr

/-- Result of running the `data` handler on one chunk: the updated
transport state, the byte strings written back on this socket (in order),
whether the handler closed the socket (the handler never does), and the
classification of the chunk. -/
structure HandlerOutput where
  state : TransportState
  writes : List String
  closed : Bool
  event : HandlerEvent

/-- The literal reply sent to an HTTP health-check probe. -/
def httpOkReply : String := "HTTP/1.1 200 OK\r\nContent-Length: 0\r\n\r\n"

/-- The `catch` branch of the `data` handler: a chunk that failed to parse
as JSON is answered with `httpOkReply` when it looks like an HTTP request
line, otherwise logged as a parse error; the connection is never closed. -/
def catchOut (st : TransportState) (raw : String) : HandlerOutput :=
  if jsStartsWith raw "HEAD /" || jsStartsWith raw "GET /" || jsStartsWith raw "POST /" then
    ⟨st, [httpOkReply], false, HandlerEvent.httpProbe⟩
  else
    ⟨st, [], false, HandlerEvent.decodeError⟩

/-- The assignment `socket.clientId = parsedMessage.clientId`: the socket
object named `sid` (wherever it sits in the clients array) gets the new
identity; nothing else changes. -/
def registerClient (st : TransportState) (sid : Nat) (cid : String) : TransportState :=
  { st with clients :=
      st.clients.map (fun c => if c.id = sid then { c with clientId := some cid } else c) }

/-- The test `parsedMessage.type === t` for a string literal `t`. -/
def typeIs (m : Json) (t : String) : Bool :=
  match m.getField "type" with
  | some (Json.str s) => s == t
  | _ => false

/-- The guarded read of `parsedMessage.clientId` behind
`typeof parsedMessage.clientId === 'string'`. -/
def clientIdStr (m : Json) : Option String :=
  match m.getField "clientId" with
  | some (Json.str s) => some s
  | _ => none

/-- The success reply written after `callTool` resolves. -/
def toolOkFrame (tidJ r : Json) : String :=
  Json.stringify (Json.obj
    [("type", Json.str "tool_response"), ("tool_id", tidJ), ("result", r)]) ++ "\n"

/-- The error reply written when `callTool` throws. -/
def toolErrFrame (tidJ : Json) (e : String) : String :=
  Json.stringify (Json.obj
    [("type", Json.str "tool_response"), ("tool_id", tidJ), ("error", Json.str e)]) ++ "\n"

/-- Dispatch of a successfully parsed, non-null message, mirroring the
`try` block of the `data` handler: the `register_client` branch (taken
only when `clientId` is a string), then the `tool_request` branch (acting
only when `tool_id` and `args` are both truthy), then the unknown-type
warning. `ct` is the external `mcpServerInstance.callTool` engine. -/
def handleParsed (ct : Json → Json → Except String Json) (st : TransportState)
    (sid : Nat) (m : Json) : HandlerOutput :=
  match (if typeIs m "register_client" then clientIdStr m else none) with
  | some cid => ⟨registerClient st sid cid, [], false, HandlerEvent.registered cid⟩
  | none =>
    if typeIs m "tool_request" then
      match m.getField "tool_id", m.getField "args" with
      | some tidJ, some argsJ =>
        if tidJ.jsTruthy && argsJ.jsTruthy then
          match ct tidJ argsJ with
          | Except.ok r => ⟨st, [toolOkFrame tidJ r], false, HandlerEvent.toolOk⟩
          | Except.error e => ⟨st, [toolErrFrame tidJ e], false, HandlerEvent.toolErr⟩
        else ⟨st, [], false, HandlerEvent.toolDropped⟩
      | _, _ => ⟨st, [], false, HandlerEvent.toolDropped⟩
    else ⟨st, [], false, HandlerEvent.unknown⟩

/-- The socket `data` handler of `NetServerTransport` on one inbound byte
chunk: trim, ignore if empty, `JSON.parse` the whole chunk (there is no
accumulating buffer — the chunk itself must be one JSON document), then
dispatch; a parsed `null` makes the member access `parsedMessage.type`
throw, landing in the same `catch` branch as a parse failure. -/
def handleData (ct : Json → Json → Except String Json) (st : TransportState)
    (sid : Nat) (chunk : String) : HandlerOutput :=
  let raw := jsTrim chunk
  if raw = "" then ⟨st, [], false, HandlerEvent.empty⟩
  else
    match Json.parse raw with
    | none => catchOut st raw
    | some Json.null => catchOut st raw
    | some m => handleParsed ct st sid m

/-- `sendToAllPhones`: serialize with a trailing newline; with the
transport not ready or no connected clients the string is queued,
otherwise it is written to every client. -/
def sendToAllPhones (st : TransportState) (d : Json) : TransportState × List (Nat × String) :=
  let msg := Json.stringify d ++ "\n"
  if !st.transportReady || st.clients.length == 0 then
    ({ st with messageQueue := st.messageQueue ++ [QueueItem.broadcast msg] }, [])
  else
    (st, st.clients.map (fun c => (c.id, msg)))

/-- `sendToPhone`: find the first client whose `clientId` matches; queue a
targeted record when there is none, otherwise write the serialized data to
that client. -/
def sendToPhone (st : TransportState) (cid : String) (d : Json) :
    TransportState × List (Nat × String) :=
  match st.clients.find? (fun c => c.clientId == some cid) with
  | none => ({ st with messageQueue := st.messageQueue ++ [QueueItem.targeted cid d] }, [])
  | some c => (st, [(c.id, Json.stringify d ++ "\n")])

/-- One iteration of the `flushMessageQueue` loop, threading the
`remainingQueue` and the writes performed so far: a broadcast string goes
to every client when at least one is connected and is otherwise retained;
a targeted record is delivered to the first matching client when its
`clientId` and `data` are both truthy and such a client exists, and is
otherwise retained. -/
def flushStep (cls : List Conn) (acc : List QueueItem × List (Nat × String))
    (item : QueueItem) : List QueueItem × List (Nat × String) :=
  match item with
  | QueueItem.broadcast msg =>
    if cls.length > 0 then (acc.1, acc.2 ++ cls.map (fun c => (c.id, msg)))
    else (acc.1 ++ [item], acc.2)
  | QueueItem.targeted cid d =>
    if cid != "" && d.jsTruthy then
      match cls.find? (fun c => c.clientId == some cid) with
      | some c => (acc.1, acc.2 ++ [(c.id, Json.stringify d ++ "\n")])
      | none => (acc.1 ++ [item], acc.2)
    else (acc.1 ++ [item], acc.2)

/-- `flushMessageQueue`: nothing happens unless the transport is ready;
otherwise the queue is walked once in order and replaced by the retained
entries. The returned list is every write performed, in order. -/
def flushMessageQueue (st : TransportState) : TransportState × List (Nat × String) :=
  if st.transportReady then
    match st.messageQueue.foldl (flushStep st.clients) ([], []) with
    | (remaining, writes) => ({ st with messageQueue := remaining }, writes)
  else (st, [])

/-- `start`: once the server is listening the ready flag is set, the
readiness observer fires, and the queue is flushed. -/
def start (st : TransportState) : TransportState × List (Nat × String) :=
  flushMessageQueue { st with transportReady := true }

/-- Whether `flushMessageQueue` retains an entry (pushes it onto
`remainingQueue`) given the current clients array. -/
def itemRetained (cls : List Conn) : QueueItem → Bool
  | QueueItem.broadcast _ => if cls.length > 0 then false else true
  | QueueItem.targeted cid d =>
    if cid != "" && d.jsTruthy then
      match cls.find? (fun c => c.clientId == some cid) with
      | some _ => false
      | none => true
    else true

/-- The writes `flushMessageQueue` performs for one entry given the
current clients array. -/
def itemWrites (cls : List Conn) : QueueItem → List (Nat × String)
  | QueueItem.broadcast msg =>
    if cls.length > 0 then cls.map (fun c => (c.id, msg)) else []
  | QueueItem.targeted cid d =>
    if cid != "" && d.jsTruthy then
      match cls.find? (fun c => c.clientId == some cid) with
      | some c => [(c.id, Json.stringify d ++ "\n")]
      | none => []
    else []

/-- One `flushMessageQueue` iteration appends the retained entry (if any)
and the writes for the entry to the running accumulators. -/
lemma flushStep_eq (cls : List Conn) (acc : List QueueItem × List (Nat × String))
    (item : QueueItem) :
    flushStep cls acc item =
      (acc.1 ++ (if itemRetained cls item then [item] else []),
       acc.2 ++ itemWrites cls item) := by
  cases item with
  | broadcast msg =>
    simp only [flushStep, itemRetained, itemWrites]
    split <;> simp
  | targeted cid d =>
    simp only [flushStep, itemRetained, itemWrites]
    split
    · cases h : cls.find? (fun c => c.clientId == some cid) <;> simp [h]
    · simp

/-- The `flushMessageQueue` loop keeps exactly the retained entries, in
order, and performs exactly the per-entry writes, in order. -/
lemma foldl_flushStep (cls : List Conn) (q : List QueueItem) :
    ∀ a w, q.foldl (flushStep cls) (a, w) =
      (a ++ q.filter (itemRetained cls), w ++ (q.map (itemWrites cls)).flatten) := by
  induction q with
  | nil => intro a w; simp
  | cons x q ih =>
    intro a w
    rw [List.foldl_cons, flushStep_eq, ih]
    by_cases hx : itemRetained cls x
    · simp [hx, List.filter_cons]
    · simp [hx, List.filter_cons]

/-- On a ready transport, a flush replaces the queue by the retained
entries (a filter of the old queue, so order is preserved) and performs
the per-entry writes in queue order. -/
lemma flush_ready (st : TransportState) (h : st.transportReady = true) :
    flushMessageQueue st =
      ({ st with messageQueue := st.messageQueue.filter (itemRetained st.clients) },
       (st.messageQueue.map (itemWrites st.clients)).flatten) := by
  simp only [flushMessageQueue, h, if_true]
  rw [foldl_flushStep]
  simp

/-- A tool engine that rejects every invocation; used to instantiate the
external `callTool` collaborator in concrete runs. -/
def noTool : Json → Json → Except String Json := fun _ _ => Except.error "no tool"

/-- A value with a field is an object. -/
lemma getField_isObj {j : Json} {k : String} {v : Json} (h : j.getField k = some v) :
    ∃ fs, j = Json.obj fs := by
  cases j <;> first
    | exact ⟨_, rfl⟩
    | exact absurd h (by simp [Json.getField])

/-- The empty string is not JSON. -/
lemma parse_empty_eq : Json.parse "" = none := rfl

/-- A string that parses is nonempty. -/
lemma parse_ne_empty {s : String} {j : Json} (h : Json.parse s = some j) : s ≠ "" := by
  intro he
  rw [he, parse_empty_eq] at h
  exact Option.noConfusion h

/-- When the trimmed chunk parses to an object, the `data` handler reduces
to the parsed-message dispatch. -/
lemma handleData_parsed (ct : Json → Json → Except String Json) (st : TransportState)
    (sid : Nat) (chunk : String) (fs : List (String × Json))
    (h : Json.parse (jsTrim chunk) = some (Json.obj fs)) :
    handleData ct st sid chunk = handleParsed ct st sid (Json.obj fs) := by
  have hne : jsTrim chunk ≠ "" := parse_ne_empty h
  simp [handleData, hne, h]

/-- The `type` test reduces to a string comparison once the field is
known. -/
lemma typeIs_eq {m : Json} {t0 : String} (h : m.getField "type" = some (Json.str t0))
    (t : String) : typeIs m t = (t0 == t) := by
  unfold typeIs
  rw [h]

/-- A `clientId` field that is not a string reads back as `none`. -/
lemma clientIdStr_eq_none {m : Json}
    (h : ∀ s, m.getField "clientId" ≠ some (Json.str s)) :
    clientIdStr m = none := by
  unfold clientIdStr
  cases hc : m.getField "clientId" with
  | none => rfl
  | some v =>
    cases v with
    | str s => exact absurd hc (h s)
    | null => rfl
    | bool b => rfl
    | num n => rfl
    | arr xs => rfl
    | obj fs => rfl

/-- A message whose `type` is neither `register_client` nor `tool_request`
is dispatched to the unknown-type warning with no effect. -/
lemma handleParsed_unknown {m : Json} (ct : Json → Json → Except String Json)
    (st : TransportState) (sid : Nat) {t0 : String}
    (ht : m.getField "type" = some (Json.str t0))
    (h1 : (t0 == "register_client") = false)
    (h2 : (t0 == "tool_request") = false) :
    handleParsed ct st sid m = ⟨st, [], false, HandlerEvent.unknown⟩ := by
  unfold handleParsed
  rw [typeIs_eq ht, typeIs_eq ht, h1, h2]
  simp

/-- A `register_client` message whose `clientId` is not a string falls
through to the unknown-type warning with no effect. -/
lemma handleParsed_reg_nonstring {m : Json} (ct : Json → Json → Except String Json)
    (st : TransportState) (sid : Nat)
    (ht : m.getField "type" = some (Json.str "register_client"))
    (hc : clientIdStr m = none) :
    handleParsed ct st sid m = ⟨st, [], false, HandlerEvent.unknown⟩ := by
  have e2 : (("register_client" : String) == "tool_request") = false := by decide
  unfold handleParsed
  rw [typeIs_eq ht, typeIs_eq ht, e2]
  simp [hc]

/-- A `tool_request` whose `tool_id` or `args` is absent or falsy is
silently dropped. -/
lemma handleParsed_tool_dropped {m : Json} (ct : Json → Json → Except String Json)
    (st : TransportState) (sid : Nat)
    (ht : m.getField "type" = some (Json.str "tool_request"))
    (hf : jsTruthyOpt (m.getField "tool_id") = false
          ∨ jsTruthyOpt (m.getField "args") = false) :
    handleParsed ct st sid m = ⟨st, [], false, HandlerEvent.toolDropped⟩ := by
  have e1 : (("tool_request" : String) == "register_client") = false := by decide
  have e2 : (("tool_request" : String) == "tool_request") = true := by decide
  unfold handleParsed
  rw [typeIs_eq ht, typeIs_eq ht, e1, e2]
  simp only [if_false, if_true]
  cases h1 : m.getField "tool_id" with
  | none => simp
  | some tidJ =>
    cases h2 : m.getField "args" with
    | none => simp
    | some argsJ =>
      rcases hf with hf | hf
      · rw [h1] at hf
        simp only [jsTruthyOpt] at hf
        simp [hf]
      · rw [h2] at hf
        simp only [jsTruthyOpt] at hf
        simp [hf]

/-- A `tool_request` with truthy `tool_id` and `args` whose invocation
fails writes exactly the error reply. -/
lemma handleParsed_tool_error {m : Json} (ct : Json → Json → Except String Json)
    (st : TransportState) (sid : Nat) {tidJ argsJ : Json} {e : String}
    (ht : m.getField "type" = some (Json.str "tool_request"))
    (h1 : m.getField "tool_id" = some tidJ)
    (h2 : m.getField "args" = some argsJ)
    (htr1 : tidJ.jsTruthy = true) (htr2 : argsJ.jsTruthy = true)
    (hct : ct tidJ argsJ = Except.error e) :
    handleParsed ct st sid m = ⟨st, [toolErrFrame tidJ e], false, HandlerEvent.toolErr⟩ := by
  have e1 : (("tool_request" : String) == "register_client") = false := by decide
  have e2 : (("tool_request" : String) == "tool_request") = true := by decide
  unfold handleParsed
  rw [typeIs_eq ht, typeIs_eq ht, e1, e2]
  simp only [if_false, if_true]
  rw [h1, h2]
  simp [htr1, htr2, hct]

/-- A `register_client` message with a string `clientId` performs exactly
the registration assignment. -/
lemma handleParsed_register {m : Json} (ct : Json → Json → Except String Json)
    (st : TransportState) (sid : Nat) {cid : String}
    (ht : m.getField "type" = some (Json.str "register_client"))
    (hc : m.getField "clientId" = some (Json.str cid)) :
    handleParsed ct st sid m
      = ⟨registerClient st sid cid, [], false, HandlerEvent.registered cid⟩ := by
  have e1 : (("register_client" : String) == "register_client") = true := by decide
  unfold handleParsed
  rw [typeIs_eq ht, e1]
  simp only [if_true]
  unfold clientIdStr
  rw [hc]

/-- C7: an inbound `tool_request` frame with truthy `tool_id` and `args`
whose external invocation fails makes the dispatcher write exactly one
reply frame — the serialization of
`\x7b type: tool_response, tool_id: <same id>, error: <message> \x7d` —
on the same connection; the reply object carries an `error` field and no
`result` field; the handler does not close the connection and leaves the
transport state (clients and queue) unchanged, so further frames keep
being processed. -/
theorem tool_failure_reply_confirmed (ct : Json → Json → Except String Json)
    (st : TransportState) (sid : Nat) (chunk : String) (j tidJ argsJ : Json) (e : String)
    (hp : Json.parse (jsTrim chunk) = some j)
    (ht : j.getField "type" = some (Json.str "tool_request"))
    (h1 : j.getField "tool_id" = some tidJ)
    (h2 : j.getField "args" = some argsJ)
    (htr1 : tidJ.jsTruthy = true) (htr2 : argsJ.jsTruthy = true)
    (hct : ct tidJ argsJ = Except.error e) :
    handleData ct st sid chunk = ⟨st, [toolErrFrame tidJ e], false, HandlerEvent.toolErr⟩
    ∧ (Json.obj [("type", Json.str "tool_response"), ("tool_id", tidJ),
        ("error", Json.str e)]).getField "result" = none
    ∧ (Json.obj [("type", Json.str "tool_response"), ("tool_id", tidJ),
        ("error", Json.str e)]).getField "error" = some (Json.str e) := by
  obtain ⟨fs, rfl⟩ := getField_isObj ht
  refine ⟨?_, rfl, rfl⟩
  rw [handleData_parsed ct st sid chunk fs hp]
  exact handleParsed_tool_error ct st sid ht h1 h2 htr1 htr2 hct

/-- Witness for C7 at the concrete frame
`\x7b"type":"tool_request","tool_id":"t1","args":\x7b\x7d\x7d` with a
failing tool engine. -/
theorem tool_failure_reply_witness :
    handleData (fun _ _ => Except.error "boom") ⟨[⟨0, none⟩], [], true⟩ 0
        "\x7b\"type\":\"tool_request\",\"tool_id\":\"t1\",\"args\":\x7b\x7d\x7d\n"
      = ⟨⟨[⟨0, none⟩], [], true⟩, [toolErrFrame (Json.str "t1") "boom"], false,
          HandlerEvent.toolErr⟩
    ∧ (Json.obj [("type", Json.str "tool_response"), ("tool_id", Json.str "t1"),
        ("error", Json.str "boom")]).getField "result" = none
    ∧ (Json.obj [("type", Json.str "tool_response"), ("tool_id", Json.str "t1"),
        ("error", Json.str "boom")]).getField "error" = some (Json.str "boom") :=
  tool_failure_reply_confirmed (fun _ _ => Except.error "boom") ⟨[⟨0, none⟩], [], true⟩ 0
    "\x7b\"type\":\"tool_request\",\"tool_id\":\"t1\",\"args\":\x7b\x7d\x7d\n"
    (Json.obj [("type", Json.str "tool_request"), ("tool_id", Json.str "t1"),
      ("args", Json.obj [])])
    (Json.str "t1") (Json.obj []) "boom" rfl rfl rfl rfl rfl rfl rfl

/-- C8: a received chunk that fails to parse as JSON and whose trimmed
text begins with an HTTP request-line prefix is answered with the literal
`HTTP/1.1 200 OK` reply; the connection is not closed, the transport state
is unchanged, and the chunk is classified as an HTTP probe rather than a
decode error. -/
theorem http_probe_reply_confirmed (ct : Json → Json → Except String Json)
    (st : TransportState) (sid : Nat) (chunk : String)
    (hp : Json.parse (jsTrim chunk) = none)
    (hs : (jsStartsWith (jsTrim chunk) "HEAD /" || jsStartsWith (jsTrim chunk) "GET /"
            || jsStartsWith (jsTrim chunk) "POST /") = true) :
    handleData ct st sid chunk = ⟨st, [httpOkReply], false, HandlerEvent.httpProbe⟩ := by
  have hne : jsTrim chunk ≠ "" := by
    intro he
    rw [he] at hs
    exact absurd hs (by decide)
  simp [handleData, hne, hp, catchOut, hs]

/-- Witness for C8 at the concrete probe `GET /healthz HTTP/1.1\r\n`. -/
theorem http_probe_reply_witness :
    handleData noTool ⟨[⟨0, none⟩], [], true⟩ 0 "GET /healthz HTTP/1.1\r\n"
      = ⟨⟨[⟨0, none⟩], [], true⟩, [httpOkReply], false, HandlerEvent.httpProbe⟩ :=
  http_probe_reply_confirmed noTool ⟨[⟨0, none⟩], [], true⟩ 0 "GET /healthz HTTP/1.1\r\n"
    rfl rfl

/-- C9: an inbound frame parsing as JSON with type `tool_request` whose
`tool_id` or `args` is absent or falsy invokes no tool (the outcome does
not depend on the tool engine), writes nothing back, does not close the
connection, and leaves the transport state unchanged — the request is
silently dropped. -/
theorem tool_request_falsy_dropped_confirmed
    (ct ctb : Json → Json → Except String Json)
    (st : TransportState) (sid : Nat) (chunk : String) (j : Json)
    (hp : Json.parse (jsTrim chunk) = some j)
    (ht : j.getField "type" = some (Json.str "tool_request"))
    (hf : jsTruthyOpt (j.getField "tool_id") = false
          ∨ jsTruthyOpt (j.getField "args") = false) :
    handleData ct st sid chunk = ⟨st, [], false, HandlerEvent.toolDropped⟩
    ∧ handleData ct st sid chunk = handleData ctb st sid chunk := by
  obtain ⟨fs, rfl⟩ := getField_isObj ht
  have hA : handleData ct st sid chunk = ⟨st, [], false, HandlerEvent.toolDropped⟩ := by
    rw [handleData_parsed ct st sid chunk fs hp]
    exact handleParsed_tool_dropped ct st sid ht hf
  have hB : handleData ctb st sid chunk = ⟨st, [], false, HandlerEvent.toolDropped⟩ := by
    rw [handleData_parsed ctb st sid chunk fs hp]
    exact handleParsed_tool_dropped ctb st sid ht hf
  exact ⟨hA, hA.trans hB.symm⟩

/-- Witness for C9 at the concrete frame with an empty-string `tool_id`. -/
theorem tool_request_falsy_dropped_witness :
    handleData noTool ⟨[⟨0, none⟩], [], true⟩ 0
        "\x7b\"type\":\"tool_request\",\"tool_id\":\"\",\"args\":\x7b\x7d\x7d\n"
      = ⟨⟨[⟨0, none⟩], [], true⟩, [], false, HandlerEvent.toolDropped⟩
    ∧ handleData noTool ⟨[⟨0, none⟩], [], true⟩ 0
        "\x7b\"type\":\"tool_request\",\"tool_id\":\"\",\"args\":\x7b\x7d\x7d\n"
      = handleData (fun _ _ => Except.ok Json.null) ⟨[⟨0, none⟩], [], true⟩ 0
        "\x7b\"type\":\"tool_request\",\"tool_id\":\"\",\"args\":\x7b\x7d\x7d\n" :=
  tool_request_falsy_dropped_confirmed noTool (fun _ _ => Except.ok Json.null)
    ⟨[⟨0, none⟩], [], true⟩ 0
    "\x7b\"type\":\"tool_request\",\"tool_id\":\"\",\"args\":\x7b\x7d\x7d\n"
    (Json.obj [("type", Json.str "tool_request"), ("tool_id", Json.str ""),
      ("args", Json.obj [])])
    rfl rfl (Or.inl rfl)

/-- C10: an inbound frame parsing as JSON with type `register_client`
whose `clientId` field is absent or not a string performs no registration
(the transport state, in particular every connection's assigned identity,
is unchanged), writes no reply, and is handled as an unrecognized kind. -/
theorem register_client_nonstring_confirmed (ct : Json → Json → Except String Json)
    (st : TransportState) (sid : Nat) (chunk : String) (j : Json)
    (hp : Json.parse (jsTrim chunk) = some j)
    (ht : j.getField "type" = some (Json.str "register_client"))
    (hc : ∀ s, j.getField "clientId" ≠ some (Json.str s)) :
    handleData ct st sid chunk = ⟨st, [], false, HandlerEvent.unknown⟩ := by
  obtain ⟨fs, rfl⟩ := getField_isObj ht
  rw [handleData_parsed ct st sid chunk fs hp]
  exact handleParsed_reg_nonstring ct st sid ht (clientIdStr_eq_none hc)

/-- Witness for C10 at the concrete frame whose `clientId` is the number
`7`. -/
theorem register_client_nonstring_witness :
    handleData noTool ⟨[⟨0, none⟩], [], true⟩ 0
        "\x7b\"type\":\"register_client\",\"clientId\":7\x7d\n"
      = ⟨⟨[⟨0, none⟩], [], true⟩, [], false, HandlerEvent.unknown⟩ :=
  register_client_nonstring_confirmed noTool ⟨[⟨0, none⟩], [], true⟩ 0
    "\x7b\"type\":\"register_client\",\"clientId\":7\x7d\n"
    (Json.obj [("type", Json.str "register_client"), ("clientId", Json.num 7)])
    rfl rfl (fun _ h => Json.noConfusion (Option.some.inj h))

/-- C1 (code bug): the receive path has no accumulating buffer — each
chunk is trimmed and fed to `JSON.parse` whole. A single chunk carrying
two complete newline-delimited frames is rejected as a decode error (zero
values emitted instead of two), a chunk carrying exactly one frame is
parsed, and a frame split across two chunks yields a decode error for
each half (zero values instead of one); nothing is retained for the next
chunk. -/
theorem chunk_reassembly_code_bug :
    handleData noTool ⟨[⟨0, none⟩], [], true⟩ 0 "\x7b\"a\":\"x\"\x7d\n\x7b\"b\":\"y\"\x7d\n"
      = ⟨⟨[⟨0, none⟩], [], true⟩, [], false, HandlerEvent.decodeError⟩
    ∧ handleData noTool ⟨[⟨0, none⟩], [], true⟩ 0 "\x7b\"a\":\"x\"\x7d\n"
      = ⟨⟨[⟨0, none⟩], [], true⟩, [], false, HandlerEvent.unknown⟩
    ∧ handleData noTool ⟨[⟨0, none⟩], [], true⟩ 0 "\x7b\"a\":"
      = ⟨⟨[⟨0, none⟩], [], true⟩, [], false, HandlerEvent.decodeError⟩
    ∧ handleData noTool ⟨[⟨0, none⟩], [], true⟩ 0 "\"x\"\x7d\n"
      = ⟨⟨[⟨0, none⟩], [], true⟩, [], false, HandlerEvent.decodeError⟩ :=
  ⟨rfl, rfl, rfl, rfl⟩

/-- C4 (code bug): a successful registration is not followed by a flush —
the `register_client` branch only assigns `socket.clientId` and returns,
leaving a deliverable targeted entry in the queue with no write performed,
although a flush at that moment would have delivered it; only `start`
triggers a flush. -/
theorem registration_no_flush_code_bug :
    handleData noTool ⟨[⟨0, none⟩], [QueueItem.targeted "A" (Json.str "hi")], true⟩ 0
        "\x7b\"type\":\"register_client\",\"clientId\":\"A\"\x7d\n"
      = ⟨⟨[⟨0, some "A"⟩], [QueueItem.targeted "A" (Json.str "hi")], true⟩, [], false,
          HandlerEvent.registered "A"⟩
    ∧ flushMessageQueue ⟨[⟨0, some "A"⟩], [QueueItem.targeted "A" (Json.str "hi")], true⟩
      = (⟨[⟨0, some "A"⟩], [], true⟩, [(0, "\"hi\"\n")])
    ∧ start ⟨[⟨3, some "B"⟩], [QueueItem.targeted "B" (Json.str "z")], false⟩
      = (⟨[⟨3, some "B"⟩], [], true⟩, [(3, "\"z\"\n")]) :=
  ⟨rfl, rfl, rfl⟩

/-- C2 counterexample: with transport ready and zero live connections,
`sendToAllPhones` changes the queue (the serialized payload is enqueued,
not discarded); at flush time a broadcast entry with zero live connections
is retained rather than dropped; and a connection that appears later does
receive the queued broadcast. -/
theorem broadcast_fire_and_forget_cex :
    (sendToAllPhones ⟨[], [], true⟩ (Json.str "hello")).1.messageQueue
      = [QueueItem.broadcast "\"hello\"\n"]
    ∧ flushMessageQueue ⟨[], [QueueItem.broadcast "\"hello\"\n"], true⟩
      = (⟨[], [QueueItem.broadcast "\"hello\"\n"], true⟩, [])
    ∧ flushMessageQueue ⟨[⟨0, none⟩], [QueueItem.broadcast "\"hello\"\n"], true⟩
      = (⟨[⟨0, none⟩], [], true⟩, [(0, "\"hello\"\n")]) :=
  ⟨rfl, rfl, rfl⟩

/-- C2 amended: `sendToAllPhones` with zero live connections appends the
serialized newline-terminated payload to the delivery queue and writes
nothing; at flush time a queued broadcast entry is written to every
currently live connection and dropped when at least one connection is
live, and is retained in the queue when the live-connection set is empty
(broadcasts are queued and retried, not fire-and-forget). -/
theorem broadcast_queued_amended :
    (∀ (st : TransportState) (d : Json), st.clients = [] →
      sendToAllPhones st d
        = ({ st with messageQueue :=
              st.messageQueue ++ [QueueItem.broadcast (Json.stringify d ++ "\n")] }, []))
    ∧ (∀ (cls : List Conn) (msg : String), cls ≠ [] →
      flushMessageQueue ⟨cls, [QueueItem.broadcast msg], true⟩
        = (⟨cls, [], true⟩, cls.map (fun c => (c.id, msg))))
    ∧ (∀ msg : String,
      flushMessageQueue ⟨[], [QueueItem.broadcast msg], true⟩
        = (⟨[], [QueueItem.broadcast msg], true⟩, [])) := by
  refine ⟨?_, ?_, ?_⟩
  · intro st d h
    simp [sendToAllPhones, h]
  · intro cls msg h
    have hlen : cls.length > 0 := List.length_pos.mpr h
    rw [flush_ready ⟨cls, [QueueItem.broadcast msg], true⟩ rfl]
    simp [itemRetained, itemWrites, hlen, Nat.pos_iff_ne_zero.mp hlen]
  · intro msg
    rfl

/-- Witness for the amended C2 at concrete states. -/
theorem broadcast_queued_amended_witness :
    sendToAllPhones ⟨[], [], true⟩ (Json.str "hey")
      = (⟨[], [QueueItem.broadcast "\"hey\"\n"], true⟩, [])
    ∧ flushMessageQueue ⟨[⟨2, none⟩], [QueueItem.broadcast "\"hey\"\n"], true⟩
      = (⟨[⟨2, none⟩], [], true⟩, [(2, "\"hey\"\n")])
    ∧ flushMessageQueue ⟨[], [QueueItem.broadcast "\"hey\"\n"], true⟩
      = (⟨[], [QueueItem.broadcast "\"hey\"\n"], true⟩, []) :=
  ⟨broadcast_queued_amended.1 ⟨[], [], true⟩ (Json.str "hey") rfl,
   broadcast_queued_amended.2.1 [⟨2, none⟩] "\"hey\"\n" (by simp),
   broadcast_queued_amended.2.2 "\"hey\"\n"⟩

/-- C3 counterexample: a `user_client_map` frame received before any
registration leaves the transport state exactly unchanged — no
correlation is recorded anywhere — and the frame is classified as an
unknown kind; there is no correlation map and no correlation-based
resolution in the transport. -/
theorem user_client_map_cex :
    handleData noTool ⟨[⟨0, none⟩], [], true⟩ 0
        "\x7b\"type\":\"user_client_map\",\"userId\":\"user42\",\"clientId\":\"A\"\x7d\n"
      = ⟨⟨[⟨0, none⟩], [], true⟩, [], false, HandlerEvent.unknown⟩ :=
  rfl

/-- C3 amended: every frame parsing as JSON with type `user_client_map`
is dispatched as an unrecognized kind — no reply is written, the
connection stays open, and the transport state (clients and queue) is
unchanged, so no correlation is recorded for later resolution. -/
theorem user_client_map_unknown_amended (ct : Json → Json → Except String Json)
    (st : TransportState) (sid : Nat) (chunk : String) (j : Json)
    (hp : Json.parse (jsTrim chunk) = some j)
    (ht : j.getField "type" = some (Json.str "user_client_map")) :
    handleData ct st sid chunk = ⟨st, [], false, HandlerEvent.unknown⟩ := by
  obtain ⟨fs, rfl⟩ := getField_isObj ht
  rw [handleData_parsed ct st sid chunk fs hp]
  exact handleParsed_unknown ct st sid ht (by decide) (by decide)

/-- Witness for the amended C3 at the concrete correlate-identity frame. -/
theorem user_client_map_unknown_witness :
    handleData noTool ⟨[⟨1, some "B"⟩], [], true⟩ 1
        "\x7b\"type\":\"user_client_map\",\"userId\":\"user42\",\"clientId\":\"A\"\x7d\n"
      = ⟨⟨[⟨1, some "B"⟩], [], true⟩, [], false, HandlerEvent.unknown⟩ :=
  user_client_map_unknown_amended noTool ⟨[⟨1, some "B"⟩], [], true⟩ 1
    "\x7b\"type\":\"user_client_map\",\"userId\":\"user42\",\"clientId\":\"A\"\x7d\n"
    (Json.obj [("type", Json.str "user_client_map"), ("userId", Json.str "user42"),
      ("clientId", Json.str "A")])
    rfl rfl

/-- C5 counterexample: two connections (socket 0 accepted before socket
1) both register identity `A`, socket 1 most recently; both end up holding
the identity simultaneously, and targeted delivery for `A` is written to
socket 0 — the earliest-connected holder — not to the most recently
registered socket 1. -/
theorem last_registration_wins_cex :
    (handleData noTool ⟨[⟨0, none⟩, ⟨1, none⟩], [], true⟩ 0
        "\x7b\"type\":\"register_client\",\"clientId\":\"A\"\x7d\n").state
      = ⟨[⟨0, some "A"⟩, ⟨1, none⟩], [], true⟩
    ∧ (handleData noTool ⟨[⟨0, some "A"⟩, ⟨1, none⟩], [], true⟩ 1
        "\x7b\"type\":\"register_client\",\"clientId\":\"A\"\x7d\n").state
      = ⟨[⟨0, some "A"⟩, ⟨1, some "A"⟩], [], true⟩
    ∧ sendToPhone ⟨[⟨0, some "A"⟩, ⟨1, some "A"⟩], [], true⟩ "A" (Json.str "m")
      = (⟨[⟨0, some "A"⟩, ⟨1, some "A"⟩], [], true⟩, [(0, "\"m\"\n")])
    ∧ (0 : Nat) ≠ 1 :=
  ⟨rfl, rfl, rfl, by decide⟩

/-- C5 amended: registration sets the identity on the registering socket
without clearing it from any other socket, so several live connections
may hold the same identity at once; `sendToPhone` writes to the first
connection in connection-arrival order whose `clientId` matches,
regardless of registration order. -/
theorem targeted_first_match_amended :
    (∀ (st : TransportState) (cid : String) (d : Json) (l1 l2 : List Conn) (c : Conn),
      st.clients = l1 ++ c :: l2 →
      (∀ c2 ∈ l1, (c2.clientId == some cid) = false) →
      c.clientId = some cid →
      sendToPhone st cid d = (st, [(c.id, Json.stringify d ++ "\n")]))
    ∧ (∀ (st : TransportState) (sid : Nat) (cid : String) (c : Conn),
      c ∈ st.clients → c.id ≠ sid → c ∈ (registerClient st sid cid).clients) := by
  constructor
  · intro st cid d l1 l2 c hcl hl1 hc
    unfold sendToPhone
    rw [hcl, List.find?_append]
    have h1 : l1.find? (fun c2 => c2.clientId == some cid) = none :=
      List.find?_eq_none.mpr (fun x hx => by simp [hl1 x hx])
    have h2 : (c :: l2).find? (fun c2 => c2.clientId == some cid) = some c :=
      List.find?_cons_of_pos l2 (by simp [hc])
    rw [h1, h2]
    rfl
  · intro st sid cid c hc hne
    have hfc : (fun c2 : Conn =>
        if c2.id = sid then { c2 with clientId := some cid } else c2) c = c := if_neg hne
    have hmem := List.mem_map_of_mem
      (fun c2 : Conn => if c2.id = sid then { c2 with clientId := some cid } else c2) hc
    rw [hfc] at hmem
    exact hmem

/-- Witness for the amended C5: with sockets 0 and 1 both holding `A`,
delivery goes to socket 0, and re-registering `A` on socket 1 leaves
socket 0's entry in place. -/
theorem targeted_first_match_witness :
    sendToPhone ⟨[⟨0, some "A"⟩, ⟨1, some "A"⟩], [], true⟩ "A" (Json.str "w")
      = (⟨[⟨0, some "A"⟩, ⟨1, some "A"⟩], [], true⟩, [(0, "\"w\"\n")])
    ∧ (⟨0, some "A"⟩ : Conn)
        ∈ (registerClient ⟨[⟨0, some "A"⟩, ⟨1, none⟩], [], true⟩ 1 "A").clients :=
  ⟨targeted_first_match_amended.1 ⟨[⟨0, some "A"⟩, ⟨1, some "A"⟩], [], true⟩ "A"
      (Json.str "w") [] [⟨1, some "A"⟩] ⟨0, some "A"⟩ rfl (by simp) rfl,
   targeted_first_match_amended.2 ⟨[⟨0, some "A"⟩, ⟨1, none⟩], [], true⟩ 1 "A"
      ⟨0, some "A"⟩ (by simp) (by decide)⟩

/-- C6 counterexample: the payload `null` is JS-falsy, so the queued
targeted record `\x7b clientId: "A", data: null \x7d` falls into the
unknown-format branch of the flush loop: after `A` registers and a flush
runs, nothing is written and the entry is still in the queue — it is not
delivered exactly once and not removed, contradicting the claim. -/
theorem targeted_falsy_retained_cex :
    sendToPhone ⟨[⟨0, none⟩], [], true⟩ "A" Json.null
      = (⟨[⟨0, none⟩], [QueueItem.targeted "A" Json.null], true⟩, [])
    ∧ (handleData noTool ⟨[⟨0, none⟩], [QueueItem.targeted "A" Json.null], true⟩ 0
        "\x7b\"type\":\"register_client\",\"clientId\":\"A\"\x7d\n").state
      = ⟨[⟨0, some "A"⟩], [QueueItem.targeted "A" Json.null], true⟩
    ∧ flushMessageQueue ⟨[⟨0, some "A"⟩], [QueueItem.targeted "A" Json.null], true⟩
      = (⟨[⟨0, some "A"⟩], [QueueItem.targeted "A" Json.null], true⟩, []) :=
  ⟨rfl, rfl, rfl⟩

/-- After the registration assignment the first matching client is the
newly registered socket, provided nobody matched before and no earlier
socket shares its id. -/
lemma find?_after_register (l1 l2 : List Conn) (c : Conn) (i : Nat) (a : String)
    (hfind : (l1 ++ c :: l2).find? (fun c2 => c2.clientId == some a) = none)
    (hid : c.id = i)
    (hl1 : ∀ c2 ∈ l1, c2.id ≠ i) :
    ((l1 ++ c :: l2).map
        (fun c2 => if c2.id = i then { c2 with clientId := some a } else c2)).find?
      (fun c2 => c2.clientId == some a) = some { c with clientId := some a } := by
  have hnone : ∀ x ∈ l1 ++ c :: l2, (x.clientId == some a) = false := by
    intro x hx
    have hx2 := List.find?_eq_none.mp hfind x hx
    simpa using hx2
  rw [List.map_append, List.map_cons, List.find?_append]
  have h1 : (l1.map (fun c2 => if c2.id = i then { c2 with clientId := some a } else c2)).find?
      (fun c2 => c2.clientId == some a) = none := by
    apply List.find?_eq_none.mpr
    intro x hx
    obtain ⟨y, hy, rfl⟩ := List.mem_map.mp hx
    rw [if_neg (hl1 y hy)]
    have hyn := hnone y (List.mem_append.mpr (Or.inl hy))
    simp [hyn]
  rw [h1]
  have h2 : ((if c.id = i then { c with clientId := some a } else c) ::
      l2.map (fun c2 => if c2.id = i then { c2 with clientId := some a } else c2)).find?
      (fun c2 => c2.clientId == some a) = some { c with clientId := some a } := by
    rw [if_pos hid]
    exact List.find?_cons_of_pos _ (by simp)
  rw [h2]
  rfl

/-- C6 amended: a targeted payload enqueued for an unregistered identity
is, once a connection registers that identity and a flush runs, written to
that connection exactly once and removed from the queue — provided the
identity is a nonempty string and the payload is JS-truthy (a falsy
payload or empty identity is retained forever by the unknown-format
branch); and the flush replaces the queue by the filter of retained
entries, so a targeted entry whose identity does not resolve is retained
with order preserved. -/
theorem targeted_flush_delivery_amended :
    (∀ (l1 l2 : List Conn) (c : Conn) (i : Nat) (a : String) (d : Json),
      (a == "") = false →
      d.jsTruthy = true →
      (l1 ++ c :: l2).find? (fun c2 => c2.clientId == some a) = none →
      c.id = i →
      (∀ c2 ∈ l1, c2.id ≠ i) →
      sendToPhone ⟨l1 ++ c :: l2, [], true⟩ a d
          = (⟨l1 ++ c :: l2, [QueueItem.targeted a d], true⟩, [])
        ∧ flushMessageQueue
            (registerClient ⟨l1 ++ c :: l2, [QueueItem.targeted a d], true⟩ i a)
          = (registerClient ⟨l1 ++ c :: l2, [], true⟩ i a,
             [(i, Json.stringify d ++ "\n")]))
    ∧ (∀ (cls : List Conn) (q : List QueueItem),
        (flushMessageQueue ⟨cls, q, true⟩).1.messageQueue = q.filter (itemRetained cls))
    ∧ (∀ (cls : List Conn) (cid : String) (d : Json),
        cls.find? (fun c2 => c2.clientId == some cid) = none →
        itemRetained cls (QueueItem.targeted cid d) = true) := by
  refine ⟨?_, ?_, ?_⟩
  · intro l1 l2 c i a d ha hd hfind hid hl1
    have hfind2 := find?_after_register l1 l2 c i a hfind hid hl1
    have hcond : (a != "" && d.jsTruthy) = true := by simp [bne, ha, hd]
    have hr : itemRetained
        ((l1 ++ c :: l2).map (fun c2 => if c2.id = i then { c2 with clientId := some a } else c2))
        (QueueItem.targeted a d) = false := by
      simp only [itemRetained]
      rw [hcond]
      simp only [if_true]
      rw [hfind2]
    have hw : itemWrites
        ((l1 ++ c :: l2).map (fun c2 => if c2.id = i then { c2 with clientId := some a } else c2))
        (QueueItem.targeted a d) = [(i, Json.stringify d ++ "\n")] := by
      simp only [itemWrites]
      rw [hcond]
      simp only [if_true]
      rw [hfind2]
      simp [hid]
    constructor
    · simp [sendToPhone, hfind]
    · rw [flush_ready (registerClient ⟨l1 ++ c :: l2, [QueueItem.targeted a d], true⟩ i a) rfl]
      simp only [registerClient] at hr hw ⊢
      simp only [List.map_append, List.map_cons] at hr hw
      simp [hr, hw]
  · intro cls q
    rw [flush_ready ⟨cls, q, true⟩ rfl]
  · intro cls cid d h
    cases hc : (cid != "" && d.jsTruthy) <;> simp [itemRetained, hc, h]

/-- Witness for the amended C6 at a concrete run: enqueue for the not yet
registered identity `A`, register socket 7 as `A`, flush; the payload is
written to socket 7 once and the queue is emptied. -/
theorem targeted_flush_delivery_witness :
    (sendToPhone ⟨[⟨7, none⟩], [], true⟩ "A" (Json.str "p")
        = (⟨[⟨7, none⟩], [QueueItem.targeted "A" (Json.str "p")], true⟩, [])
      ∧ flushMessageQueue
          (registerClient ⟨[⟨7, none⟩], [QueueItem.targeted "A" (Json.str "p")], true⟩ 7 "A")
        = (registerClient ⟨[⟨7, none⟩], [], true⟩ 7 "A", [(7, "\"p\"\n")])) :=
  targeted_flush_delivery_amended.1 [] [] ⟨7, none⟩ 7 "A" (Json.str "p")
    (by decide) rfl rfl rfl (by simp)

end AiSwarm
